import Mathlib

/-!
Verification of the packet-builder codecs (Ethernet / IPv4 / TCP).

This file is a shallow embedding of the Rust sources:
machine integers (u8/u16/u32) become `Nat` with explicit `% 2^w` where the
source wraps or casts; `&[u8]` becomes `List Nat` (each element a byte value);
`Result` becomes `Except String`; a Rust `panic!` (an abort the caller cannot
handle as a value, this being a no_std crate) becomes the distinguished
`PanicOr.panicked` outcome.  Bit operations on disjoint ranges are rendered
arithmetically: `x << 4 | y & 0xF` with disjoint bit ranges is
`(x % 16) * 16 + y % 16`, `(v & 0x8000) != 0` on a u16 is `v / 2^15 % 2 = 1`,
`(b & 0xF0) >> 4` on a byte is `b / 16 % 16`, and `(b & 0x0E) >> 1` is
`b / 2 % 8`.
-/

namespace PacketBuilder

/-- Outcome of a Rust function that returns its value directly and `panic!`s
on bad input: the panic aborts the call irrecoverably, it is not a value the
caller can match on. -/
inductive PanicOr (α : Type) where
  | panicked : String → PanicOr α
  | ok : α → PanicOr α
deriving DecidableEq

/-- `u16::from_be_bytes([a, b])`. -/
def fromBE16 (a b : Nat) : Nat := a * 256 + b

/-- `u32::from_be_bytes([a, b, c, d])`. -/
def fromBE32 (a b c d : Nat) : Nat := a * 2 ^ 24 + b * 2 ^ 16 + c * 256 + d

/-! ## Checksum engine (RFC 1071), shared by `Ipv4Packet::calculate_header_checksum`
and `TcpPacket::calculate_checksum_ipv4` / `calculate_checksum_ipv6`. -/

/-- The per-chunk accumulation loop
`for chunk in bytes.chunks(2) { sum += u16::from_be_bytes(..) / chunk[0] << 8 }`:
big-endian 16-bit words, a trailing odd byte is the high byte of a
zero-padded word. -/
def sumBE16 : List Nat → Nat
  | [] => 0
  | [b] => b * 256
  | b0 :: b1 :: rest => fromBE16 b0 b1 + sumBE16 rest

/-- One step of the carry-folding loop body
`sum = (sum & 0xFFFF) + (sum >> 16)`. -/
def foldStep (s : Nat) : Nat := s % 65536 + s / 65536

/-- The loop `while (sum >> 16) != 0 { sum = (sum & 0xFFFF) + (sum >> 16) }`,
written with an explicit iteration bound: each iteration strictly decreases
`sum` while the guard holds, so `sum` itself bounds the number of
iterations. -/
def foldCarryAux : Nat → Nat → Nat
  | 0, s => s
  | fuel + 1, s => if s / 65536 ≠ 0 then foldCarryAux fuel (foldStep s) else s

/-- The carry-folding loop of the checksum engine. -/
def foldCarry (s : Nat) : Nat := foldCarryAux s s

/-- `!sum as u16` on the folded u32 accumulator: bitwise complement of the
32-bit value, truncated to the low 16 bits. -/
def complement16 (s : Nat) : Nat := (2 ^ 32 - 1 - s % 2 ^ 32) % 65536

/-- The Internet checksum over a byte sequence: sum as big-endian 16-bit words
in a u32 accumulator, fold the carries, complement the low 16 bits. -/
def internetChecksum (bytes : List Nat) : Nat :=
  complement16 (foldCarry (sumBE16 bytes % 2 ^ 32))

/-! ## IPv4 options (`src/network/ipv4/options.rs`) -/

/-- `Ipv4Option`: the two supported single-byte IPv4 options. -/
inductive Ipv4Option where
  | EndOfOptionsList : Ipv4Option
  | NoOperation : Ipv4Option
deriving DecidableEq

/-- `Ipv4Option::length`. -/
def Ipv4Option.length : Ipv4Option → Nat
  | .EndOfOptionsList => 1
  | .NoOperation => 1

/-- `Ipv4Option::to_bytes`. -/
def Ipv4Option.to_bytes : Ipv4Option → List Nat
  | .EndOfOptionsList => [0]
  | .NoOperation => [1]

/-- `Ipv4Option::from_bytes`: one byte, type code 0 or 1, anything else is a
decode error; returns the option and the number of bytes consumed. -/
def Ipv4Option.from_bytes : List Nat → Except String (Ipv4Option × Nat)
  | [] => .error "Empty option bytes"
  | b :: _ =>
    match b with
    | 0 => .ok (.EndOfOptionsList, 1)
    | 1 => .ok (.NoOperation, 1)
    | _ => .error "Unknown option type"

/-- `Ipv4Options`: an ordered list of options. -/
structure Ipv4Options where
  options : List Ipv4Option
deriving DecidableEq

/-- `Ipv4Options::new`. -/
def Ipv4Options.new : Ipv4Options := ⟨[]⟩

/-- `Ipv4Options::add`. -/
def Ipv4Options.add (o : Ipv4Options) (opt : Ipv4Option) : Ipv4Options :=
  ⟨o.options ++ [opt]⟩

/-- `Ipv4Options::total_length`: sum of the per-option lengths, rounded up to
the next multiple of 4. -/
def Ipv4Options.total_length (o : Ipv4Options) : Nat :=
  let len := (o.options.map Ipv4Option.length).sum
  if len % 4 ≠ 0 then len + (4 - len % 4) else len

/-- `Ipv4Options::words_needed` = `(total_length() / 4) as u8`. -/
def Ipv4Options.words_needed (o : Ipv4Options) : Nat :=
  o.total_length / 4 % 256

/-- `Ipv4Options::to_bytes`: each option byte in insertion order, then zero
bytes up to a multiple of 4 (`Vec::resize`). -/
def Ipv4Options.to_bytes (o : Ipv4Options) : List Nat :=
  let bytes := o.options.flatMap Ipv4Option.to_bytes
  bytes ++ List.replicate (if bytes.length % 4 ≠ 0 then 4 - bytes.length % 4 else 0) 0

/-- The scan loop of `Ipv4Options::from_bytes`: decode one option at the
current position, advance by the consumed count (always 1 for the two
supported options), and stop as soon as an `EndOfOptionsList` was consumed. -/
def Ipv4Options.scan : List Nat → Except String (List Ipv4Option)
  | [] => .ok []
  | b :: rest =>
    match Ipv4Option.from_bytes (b :: rest) with
    | .error e => .error e
    | .ok (opt, _consumed) =>
      if opt = .EndOfOptionsList then .ok [opt]
      else
        match Ipv4Options.scan rest with
        | .error e => .error e
        | .ok opts => .ok (opt :: opts)

/-- `Ipv4Options::from_bytes`. -/
def Ipv4Options.from_bytes (bytes : List Nat) : Except String Ipv4Options :=
  match Ipv4Options.scan bytes with
  | .error e => .error e
  | .ok opts => .ok ⟨opts⟩

/-! ## TCP options (`src/transport/tcp/options.rs`) -/

/-- `TcpOption`: End-of-option-list, No-operation, and Maximum-segment-size. -/
inductive TcpOption where
  | EndOfOptionList : TcpOption
  | NoOperation : TcpOption
  | MaximumSegmentSize : Nat → TcpOption
deriving DecidableEq

/-- `TcpOption::length` (kind and length fields included). -/
def TcpOption.length : TcpOption → Nat
  | .EndOfOptionList => 1
  | .NoOperation => 1
  | .MaximumSegmentSize _ => 4

/-- `TcpOption::to_bytes`: MSS encodes as kind 2, length 4, then the 16-bit
value big-endian (`mss.to_be_bytes`). -/
def TcpOption.to_bytes : TcpOption → List Nat
  | .EndOfOptionList => [0]
  | .NoOperation => [1]
  | .MaximumSegmentSize mss => [2, 4, mss % 65536 / 256, mss % 256]

/-- `TcpOption::from_bytes`: kind 0 and 1 are single bytes; kind 2 requires
at least 4 remaining bytes and a declared length byte of exactly 4; any other
kind is a decode error.  Returns the option and the bytes consumed. -/
def TcpOption.from_bytes : List Nat → Except String (TcpOption × Nat)
  | [] => .error "Empty bytes for TCP option"
  | b :: rest =>
    match b with
    | 0 => .ok (.EndOfOptionList, 1)
    | 1 => .ok (.NoOperation, 1)
    | 2 =>
      if (b :: rest).length < 4 then .error "MSS option requires 4 bytes"
      else if (b :: rest).getD 1 0 ≠ 4 then .error "MSS option length must be 4"
      else .ok (.MaximumSegmentSize (fromBE16 ((b :: rest).getD 2 0) ((b :: rest).getD 3 0)), 4)
    | _ => .error "Unknown TCP option kind"

/-- `TcpOptions`: an ordered list of options. -/
structure TcpOptions where
  options : List TcpOption
deriving DecidableEq

/-- `TcpOptions::new`. -/
def TcpOptions.new : TcpOptions := ⟨[]⟩

/-- `TcpOptions::add`. -/
def TcpOptions.add (o : TcpOptions) (opt : TcpOption) : TcpOptions :=
  ⟨o.options ++ [opt]⟩

/-- `TcpOptions::total_length`: sum of the per-option lengths (no padding). -/
def TcpOptions.total_length (o : TcpOptions) : Nat :=
  (o.options.map TcpOption.length).sum

/-- `TcpOptions::words_needed` = `((total_length() + 3) / 4) as u8`. -/
def TcpOptions.words_needed (o : TcpOptions) : Nat :=
  (o.total_length + 3) / 4 % 256

/-- `TcpOptions::to_bytes`: concatenation of each option's encoding, then zero
bytes until the length reaches `words_needed() * 4`. -/
def TcpOptions.to_bytes (o : TcpOptions) : List Nat :=
  let bytes := o.options.flatMap TcpOption.to_bytes
  bytes ++ List.replicate (o.words_needed * 4 - bytes.length) 0

/-- The scan loop of `TcpOptions::from_bytes`: a zero byte at the current
offset is the start of padding and terminates the scan immediately (it is not
decoded as an option); otherwise decode one option, advance by its consumed
count (`NoOperation` consumes 1, `MaximumSegmentSize` consumes 4), and stop
after an explicitly decoded `EndOfOptionList` (unreachable here, since the
byte 0 was already intercepted, but present in the source). -/
def TcpOptions.scan : List Nat → Except String (List TcpOption)
  | [] => .ok []
  | b :: rest =>
    if b = 0 then .ok []
    else
      match TcpOption.from_bytes (b :: rest) with
      | .error e => .error e
      | .ok (opt, _consumed) =>
        match opt with
        | .EndOfOptionList => .ok [opt]
        | .NoOperation =>
          match TcpOptions.scan rest with
          | .error e => .error e
          | .ok opts => .ok (.NoOperation :: opts)
        | .MaximumSegmentSize m =>
          match TcpOptions.scan (rest.drop 3) with
          | .error e => .error e
          | .ok opts => .ok (.MaximumSegmentSize m :: opts)
  termination_by bs => bs.length
  decreasing_by
    · simp
    · simp [List.length_drop]; omega

/-- `TcpOptions::from_bytes`. -/
def TcpOptions.from_bytes (bytes : List Nat) : Except String TcpOptions :=
  match TcpOptions.scan bytes with
  | .error e => .error e
  | .ok opts => .ok ⟨opts⟩

/-! ## IPv4 header (`src/network/ipv4/header.rs`) -/

/-- `Ipv4Flags`: the 3-bit IPv4 control-flags field. -/
structure Ipv4Flags where
  reserved : Bool
  dont_fragment : Bool
  more_fragments : Bool
deriving DecidableEq

/-- `Ipv4Flags::new`. -/
def Ipv4Flags.new : Ipv4Flags := ⟨false, false, false⟩

/-- `Ipv4Flags::to_u16`: reserved at bit 15, DF at bit 14, MF at bit 13,
or-ed with `fragment_offset & 0x1FFF` in the low 13 bits (the bit ranges are
disjoint, so the bitwise or is a sum). -/
def Ipv4Flags.to_u16 (f : Ipv4Flags) (fragment_offset : Nat) : Nat :=
  (if f.reserved then 0x8000 else 0) + (if f.dont_fragment then 0x4000 else 0) +
    (if f.more_fragments then 0x2000 else 0) + fragment_offset % 0x2000

/-- `Ipv4Flags::from_u16`: each flag tests its mask bit
(`(value & 0x8000) != 0` on a u16 is bit 15, written `v / 2^15 % 2 = 1`),
and the fragment offset is `value & 0x1FFF`. -/
def Ipv4Flags.from_u16 (v : Nat) : Ipv4Flags × Nat :=
  (⟨decide (v / 0x8000 % 2 = 1), decide (v / 0x4000 % 2 = 1), decide (v / 0x2000 % 2 = 1)⟩,
    v % 0x2000)

/-- `Ipv4Header` (all integer fields as `Nat`; `Wf` states the u8/u16 bounds
the Rust types enforce). -/
structure Ipv4Header where
  version : Nat
  ihl : Nat
  type_of_service : Nat
  total_length : Nat
  identification : Nat
  flags : Ipv4Flags
  fragment_offset : Nat
  time_to_live : Nat
  protocol : Nat
  header_checksum : Nat
  source_address : Nat × Nat × Nat × Nat
  destination_address : Nat × Nat × Nat × Nat
deriving DecidableEq

/-- The bounds the Rust field types (`u8`, `u16`, `[u8; 4]`) guarantee. -/
def Ipv4Header.Wf (h : Ipv4Header) : Prop :=
  h.version < 256 ∧ h.ihl < 256 ∧ h.type_of_service < 256 ∧
    h.total_length < 65536 ∧ h.identification < 65536 ∧
    h.fragment_offset < 65536 ∧ h.time_to_live < 256 ∧ h.protocol < 256 ∧
    h.header_checksum < 65536 ∧
    h.source_address.1 < 256 ∧ h.source_address.2.1 < 256 ∧
    h.source_address.2.2.1 < 256 ∧ h.source_address.2.2.2 < 256 ∧
    h.destination_address.1 < 256 ∧ h.destination_address.2.1 < 256 ∧
    h.destination_address.2.2.1 < 256 ∧ h.destination_address.2.2.2 < 256

instance (h : Ipv4Header) : Decidable h.Wf := by
  unfold Ipv4Header.Wf; infer_instance

/-- `Ipv4Header::new`. -/
def Ipv4Header.new (src dst : Nat × Nat × Nat × Nat) (protocol : Nat) : Ipv4Header where
  version := 4
  ihl := 5
  type_of_service := 0
  total_length := 0
  identification := 0
  flags := Ipv4Flags.new
  fragment_offset := 0
  time_to_live := 64
  protocol := protocol
  header_checksum := 0
  source_address := src
  destination_address := dst

/-- `Ipv4Header::to_bytes`: the fixed 20-byte layout.  Byte 0 is
`(version << 4) | (ihl & 0x0F)` on u8, i.e. `(version % 16) * 16 + ihl % 16`;
the 16-bit fields are emitted big-endian (`to_be_bytes`). -/
def Ipv4Header.to_bytes (h : Ipv4Header) : List Nat :=
  [(h.version % 16) * 16 + h.ihl % 16,
   h.type_of_service,
   h.total_length % 65536 / 256, h.total_length % 256,
   h.identification % 65536 / 256, h.identification % 256,
   h.flags.to_u16 h.fragment_offset % 65536 / 256, h.flags.to_u16 h.fragment_offset % 256,
   h.time_to_live,
   h.protocol,
   h.header_checksum % 65536 / 256, h.header_checksum % 256,
   h.source_address.1, h.source_address.2.1, h.source_address.2.2.1, h.source_address.2.2.2,
   h.destination_address.1, h.destination_address.2.1,
   h.destination_address.2.2.1, h.destination_address.2.2.2]

/-- `Ipv4Header::from_bytes`: fails on fewer than 20 bytes, a version nibble
other than 4 (`(bytes[0] >> 4) & 0x0F`, i.e. `b0 / 16 % 16`), or an IHL
nibble (`bytes[0] & 0x0F`, i.e. `b0 % 16`) below 5. -/
def Ipv4Header.from_bytes (bytes : List Nat) : Except String Ipv4Header :=
  if bytes.length < 20 then .error "IPv4 header must be at least 20 bytes"
  else
    let version := bytes.getD 0 0 / 16 % 16
    let ihl := bytes.getD 0 0 % 16
    if version ≠ 4 then .error "Invalid IP version"
    else if ihl < 5 then .error "Invalid IHL (must be at least 5)"
    else
      let fl := Ipv4Flags.from_u16 (fromBE16 (bytes.getD 6 0) (bytes.getD 7 0))
      .ok
        { version := version
          ihl := ihl
          type_of_service := bytes.getD 1 0
          total_length := fromBE16 (bytes.getD 2 0) (bytes.getD 3 0)
          identification := fromBE16 (bytes.getD 4 0) (bytes.getD 5 0)
          flags := fl.1
          fragment_offset := fl.2
          time_to_live := bytes.getD 8 0
          protocol := bytes.getD 9 0
          header_checksum := fromBE16 (bytes.getD 10 0) (bytes.getD 11 0)
          source_address :=
            (bytes.getD 12 0, bytes.getD 13 0, bytes.getD 14 0, bytes.getD 15 0)
          destination_address :=
            (bytes.getD 16 0, bytes.getD 17 0, bytes.getD 18 0, bytes.getD 19 0) }

/-! ## TCP header (`src/transport/tcp/header.rs`) -/

/-- `TcpFlags`: the 8 TCP control flags. -/
structure TcpFlags where
  cwr : Bool
  ece : Bool
  urg : Bool
  ack : Bool
  psh : Bool
  rst : Bool
  syn : Bool
  fin : Bool
deriving DecidableEq

/-- `TcpFlags::new`. -/
def TcpFlags.new : TcpFlags := ⟨false, false, false, false, false, false, false, false⟩

/-- `TcpFlags::to_u16`: FIN at bit 0 up to CWR at bit 7 (disjoint bits, so
the bitwise ors are a sum). -/
def TcpFlags.to_u16 (f : TcpFlags) : Nat :=
  (if f.fin then 0x01 else 0) + (if f.syn then 0x02 else 0) + (if f.rst then 0x04 else 0) +
    (if f.psh then 0x08 else 0) + (if f.ack then 0x10 else 0) + (if f.urg then 0x20 else 0) +
    (if f.ece then 0x40 else 0) + (if f.cwr then 0x80 else 0)

/-- `TcpFlags::from_u16`: each flag tests its mask bit
(`(value & 0x01) != 0` is `v % 2 = 1`, and so on up the bits). -/
def TcpFlags.from_u16 (v : Nat) : TcpFlags where
  cwr := decide (v / 0x80 % 2 = 1)
  ece := decide (v / 0x40 % 2 = 1)
  urg := decide (v / 0x20 % 2 = 1)
  ack := decide (v / 0x10 % 2 = 1)
  psh := decide (v / 0x08 % 2 = 1)
  rst := decide (v / 0x04 % 2 = 1)
  syn := decide (v / 0x02 % 2 = 1)
  fin := decide (v % 2 = 1)

/-- `TcpHeader` (integer fields as `Nat`; `Wf` states the Rust type bounds). -/
structure TcpHeader where
  source_port : Nat
  destination_port : Nat
  sequence_number : Nat
  acknowledgment_number : Nat
  data_offset : Nat
  reserved : Nat
  flags : TcpFlags
  window : Nat
  checksum : Nat
  urgent_pointer : Nat
deriving DecidableEq

/-- The bounds the Rust field types (`u8`, `u16`, `u32`) guarantee. -/
def TcpHeader.Wf (h : TcpHeader) : Prop :=
  h.source_port < 65536 ∧ h.destination_port < 65536 ∧
    h.sequence_number < 2 ^ 32 ∧ h.acknowledgment_number < 2 ^ 32 ∧
    h.data_offset < 256 ∧ h.reserved < 256 ∧ h.window < 65536 ∧
    h.checksum < 65536 ∧ h.urgent_pointer < 65536

instance (h : TcpHeader) : Decidable h.Wf := by
  unfold TcpHeader.Wf; infer_instance

/-- `TcpHeader::new`. -/
def TcpHeader.new (source_port destination_port : Nat) : TcpHeader where
  source_port := source_port
  destination_port := destination_port
  sequence_number := 0
  acknowledgment_number := 0
  data_offset := 5
  reserved := 0
  flags := TcpFlags.new
  window := 0
  checksum := 0
  urgent_pointer := 0

/-- `TcpHeader::to_bytes`: the fixed 20-byte layout.  Byte 12 is
`(data_offset << 4) | (reserved & 0x07)` on u8, i.e.
`(data_offset % 16) * 16 + reserved % 8`; byte 13 is `flags.to_u16() as u8`;
the 16/32-bit fields are emitted big-endian. -/
def TcpHeader.to_bytes (h : TcpHeader) : List Nat :=
  [h.source_port % 65536 / 256, h.source_port % 256,
   h.destination_port % 65536 / 256, h.destination_port % 256,
   h.sequence_number % 2 ^ 32 / 2 ^ 24, h.sequence_number % 2 ^ 24 / 2 ^ 16,
   h.sequence_number % 2 ^ 16 / 256, h.sequence_number % 256,
   h.acknowledgment_number % 2 ^ 32 / 2 ^ 24, h.acknowledgment_number % 2 ^ 24 / 2 ^ 16,
   h.acknowledgment_number % 2 ^ 16 / 256, h.acknowledgment_number % 256,
   (h.data_offset % 16) * 16 + h.reserved % 8,
   h.flags.to_u16 % 256,
   h.window % 65536 / 256, h.window % 256,
   h.checksum % 65536 / 256, h.checksum % 256,
   h.urgent_pointer % 65536 / 256, h.urgent_pointer % 256]

/-- `TcpHeader::from_bytes`: `panic!`s (an irrecoverable abort, not a
returned error value) when fewer than 20 bytes are given; otherwise reads the
fixed layout.  The data offset is `(bytes[12] & 0xF0) >> 4`, i.e.
`b12 / 16 % 16`; the reserved field is `(bytes[12] & 0x0E) >> 1`, i.e.
`b12 / 2 % 8`. -/
def TcpHeader.from_bytes (bytes : List Nat) : PanicOr TcpHeader :=
  if bytes.length < 20 then .panicked "TCP header must be at least 20 bytes"
  else
    .ok
      { source_port := fromBE16 (bytes.getD 0 0) (bytes.getD 1 0)
        destination_port := fromBE16 (bytes.getD 2 0) (bytes.getD 3 0)
        sequence_number :=
          fromBE32 (bytes.getD 4 0) (bytes.getD 5 0) (bytes.getD 6 0) (bytes.getD 7 0)
        acknowledgment_number :=
          fromBE32 (bytes.getD 8 0) (bytes.getD 9 0) (bytes.getD 10 0) (bytes.getD 11 0)
        data_offset := bytes.getD 12 0 / 16 % 16
        reserved := bytes.getD 12 0 / 2 % 8
        flags := TcpFlags.from_u16 (bytes.getD 13 0)
        window := fromBE16 (bytes.getD 14 0) (bytes.getD 15 0)
        checksum := fromBE16 (bytes.getD 16 0) (bytes.getD 17 0)
        urgent_pointer := fromBE16 (bytes.getD 18 0) (bytes.getD 19 0) }

/-! ## Ethernet header (`src/datalink/ethernet/header.rs`) -/

/-- `MacAddress`: six byte octets. -/
structure MacAddress where
  o1 : Nat
  o2 : Nat
  o3 : Nat
  o4 : Nat
  o5 : Nat
  o6 : Nat
deriving DecidableEq

/-- `EthernetHeader`: destination and source MAC addresses plus the 2-byte
ethertype tag. -/
structure EthernetHeader where
  destination_mac_address : MacAddress
  source_mac_address : MacAddress
  ethertype : Nat × Nat
deriving DecidableEq

/-- `EthernetHeader::from_bytes`: reads bytes 0..6 as the destination
address, 6..12 as the source address, 12..14 as the ethertype; the slice
operations panic when fewer than 14 bytes are supplied. -/
def EthernetHeader.from_bytes (bytes : List Nat) : PanicOr EthernetHeader :=
  if bytes.length < 14 then .panicked "slice index out of range"
  else
    .ok
      { destination_mac_address :=
          ⟨bytes.getD 0 0, bytes.getD 1 0, bytes.getD 2 0,
            bytes.getD 3 0, bytes.getD 4 0, bytes.getD 5 0⟩
        source_mac_address :=
          ⟨bytes.getD 6 0, bytes.getD 7 0, bytes.getD 8 0,
            bytes.getD 9 0, bytes.getD 10 0, bytes.getD 11 0⟩
        ethertype := (bytes.getD 12 0, bytes.getD 13 0) }

/-- Modelled from the spec: the repository has no `EthernetHeader::to_bytes`
(§4.4 notes the encoder is assembled field-by-field by the builder API), so
the encoder is taken from the normative layout of §6: 14 bytes, [0:6) the
destination address, [6:12) the source address, [12:14) the type tag. -/
def EthernetHeader.to_bytes (h : EthernetHeader) : List Nat :=
  [h.destination_mac_address.o1, h.destination_mac_address.o2, h.destination_mac_address.o3,
   h.destination_mac_address.o4, h.destination_mac_address.o5, h.destination_mac_address.o6,
   h.source_mac_address.o1, h.source_mac_address.o2, h.source_mac_address.o3,
   h.source_mac_address.o4, h.source_mac_address.o5, h.source_mac_address.o6,
   h.ethertype.1, h.ethertype.2]

/-! ## IPv4 packet (`src/network/ipv4/mod.rs`) -/

/-- `Ipv4Packet`: header, options, payload. -/
structure Ipv4Packet where
  header : Ipv4Header
  options : Ipv4Options
  payload : List Nat
deriving DecidableEq

/-- `Ipv4Packet::new`. -/
def Ipv4Packet.new (src dst : Nat × Nat × Nat × Nat) (protocol : Nat)
    (payload : List Nat) : Ipv4Packet where
  header := Ipv4Header.new src dst protocol
  options := Ipv4Options.new
  payload := payload

/-- `Ipv4Packet::update_ihl`: `ihl = 5 + options.words_needed()` (u8
addition, hence the `% 256`). -/
def Ipv4Packet.update_ihl (p : Ipv4Packet) : Ipv4Packet :=
  { p with header := { p.header with ihl := (5 + p.options.words_needed) % 256 } }

/-- `Ipv4Packet::update_total_length`:
`total_length = (ihl as u16) * 4 + payload.len() as u16` — the payload length
is narrowed to 16 bits by the cast and the u16 addition wraps. -/
def Ipv4Packet.update_total_length (p : Ipv4Packet) : Ipv4Packet :=
  { p with header := { p.header with
      total_length := (p.header.ihl % 256 * 4 + p.payload.length % 65536) % 65536 } }

/-- `Ipv4Packet::calculate_header_checksum`: the Internet checksum over the
serialized header with bytes 10 and 11 (the checksum field) zeroed, followed
by the serialized options. -/
def Ipv4Packet.calculate_header_checksum (p : Ipv4Packet) : Nat :=
  internetChecksum (((p.header.to_bytes.set 10 0).set 11 0) ++ p.options.to_bytes)

/-- `Ipv4Packet::to_bytes`: update IHL, then total length, then the checksum,
then emit header ++ options ++ payload.  The Rust method mutates the packet,
so the model returns the mutated packet together with the bytes. -/
def Ipv4Packet.to_bytes (p : Ipv4Packet) : Ipv4Packet × List Nat :=
  let p1 := p.update_ihl
  let p2 := p1.update_total_length
  let p3 := { p2 with header := { p2.header with
                header_checksum := p2.calculate_header_checksum } }
  (p3, p3.header.to_bytes ++ p3.options.to_bytes ++ p3.payload)

/-! ## TCP packet (`src/transport/tcp/mod.rs`) -/

/-- `TcpPacket`: header, options, payload. -/
structure TcpPacket where
  header : TcpHeader
  options : TcpOptions
  payload : List Nat
deriving DecidableEq

/-- `TcpPacket::new`. -/
def TcpPacket.new (source_port destination_port : Nat) (payload : List Nat) : TcpPacket where
  header := TcpHeader.new source_port destination_port
  options := TcpOptions.new
  payload := payload

/-- `TcpPacket::update_data_offset`: `data_offset = 5 + options.words_needed()`
(u8 addition, hence the `% 256`). -/
def TcpPacket.update_data_offset (p : TcpPacket) : TcpPacket :=
  { p with header := { p.header with data_offset := (5 + p.options.words_needed) % 256 } }

/-- `TcpPacket::calculate_checksum_ipv4`: the IPv4 pseudo-header (source and
destination address words, the protocol number 6, and the TCP segment length
`data_offset * 4 + payload.len()`) plus the serialized header with bytes 16
and 17 (the checksum field) zeroed, the serialized options, and the payload,
all summed as big-endian 16-bit words in a u32 accumulator, folded, and
complemented. -/
def TcpPacket.calculate_checksum_ipv4 (p : TcpPacket)
    (src dst : Nat × Nat × Nat × Nat) : Nat :=
  let pseudo := fromBE16 src.1 src.2.1 + fromBE16 src.2.2.1 src.2.2.2 +
    fromBE16 dst.1 dst.2.1 + fromBE16 dst.2.2.1 dst.2.2.2 + 6 +
    (p.header.data_offset % 256 * 4 + p.payload.length)
  let headerAndOptions := ((p.header.to_bytes.set 16 0).set 17 0) ++ p.options.to_bytes
  complement16 (foldCarry
    ((pseudo + sumBE16 headerAndOptions + sumBE16 p.payload) % 2 ^ 32))

/-- `TcpPacket::to_bytes_ipv4`: update the data offset, compute and set the
checksum, then emit header ++ options ++ payload.  The Rust method mutates
the packet, so the model returns the mutated packet with the bytes. -/
def TcpPacket.to_bytes_ipv4 (p : TcpPacket) (src dst : Nat × Nat × Nat × Nat) :
    TcpPacket × List Nat :=
  let p1 := p.update_data_offset
  let p2 := { p1 with header := { p1.header with
                checksum := p1.calculate_checksum_ipv4 src dst } }
  (p2, p2.header.to_bytes ++ p2.options.to_bytes ++ p2.payload)

/-! ## Helper lemmas -/

theorem ipv4_flags_from_to (f : Ipv4Flags) (fo : Nat) (hfo : fo < 8192) :
    Ipv4Flags.from_u16 (f.to_u16 fo) = (f, fo) := by
  obtain ⟨r, d, m⟩ := f
  cases r <;> cases d <;> cases m <;>
    simp only [Ipv4Flags.to_u16, Ipv4Flags.from_u16, Bool.false_eq_true, if_true, if_false,
      Prod.mk.injEq, Ipv4Flags.mk.injEq, decide_eq_true_eq, decide_eq_false_iff_not,
      ite_true, ite_false] <;>
    refine ⟨⟨?_, ?_, ?_⟩, ?_⟩ <;> omega

theorem tcp_flags_from_to (f : TcpFlags) :
    TcpFlags.from_u16 (f.to_u16 % 256) = f := by
  obtain ⟨a, b, c, d, e, g, h, i⟩ := f
  revert a b c d e g h i
  decide

theorem to_u16_lt (f : Ipv4Flags) (fo : Nat) : f.to_u16 fo < 65536 := by
  obtain ⟨r, d, m⟩ := f
  cases r <;> cases d <;> cases m <;> simp [Ipv4Flags.to_u16] <;> omega

theorem fromBE16_split (x : Nat) (hx : x < 65536) :
    fromBE16 (x % 65536 / 256) (x % 256) = x := by
  unfold fromBE16; omega

theorem fromBE32_split (x : Nat) (hx : x < 2 ^ 32) :
    fromBE32 (x % 2 ^ 32 / 2 ^ 24) (x % 2 ^ 24 / 2 ^ 16) (x % 2 ^ 16 / 256) (x % 256) = x := by
  unfold fromBE32; omega

/-- Decoding an encoded IPv4 header recovers it, whenever the fields are in
the wire format's ranges. -/
theorem ipv4_header_roundtrip (h : Ipv4Header) (hwf : h.Wf) (hv : h.version = 4)
    (hihl5 : 5 ≤ h.ihl) (hihl15 : h.ihl ≤ 15) (hfo : h.fragment_offset < 8192) :
    Ipv4Header.from_bytes h.to_bytes = .ok h := by
  obtain ⟨w1, w2, w3, w4, w5, w6, w7, w8, w9, w10, w11, w12, w13, w14, w15, w16, w17⟩ := hwf
  obtain ⟨ver, ihl, tos, tl, idf, fl, fo, ttl, pr, ck, ⟨s1, s2, s3, s4⟩, ⟨d1, d2, d3, d4⟩⟩ := h
  simp only at hv hihl5 hihl15 hfo w1 w2 w3 w4 w5 w6 w7 w8 w9 w10 w11 w12 w13 w14 w15 w16 w17
  subst hv
  simp only [Ipv4Header.from_bytes, Ipv4Header.to_bytes, List.length_cons, List.length_nil,
    List.getD_cons_zero, List.getD_cons_succ]
  rw [fromBE16_split _ (to_u16_lt fl fo), ipv4_flags_from_to fl fo hfo]
  have e1 : (4 % 16 * 16 + ihl % 16) / 16 % 16 = 4 := by omega
  have e2 : (4 % 16 * 16 + ihl % 16) % 16 = ihl := by omega
  rw [e1, e2]
  simp only [if_neg (by omega : ¬ (0 + 1 + 1 + 1 + 1 + 1 + 1 + 1 + 1 + 1 + 1 + 1 + 1 + 1
      + 1 + 1 + 1 + 1 + 1 + 1 + 1 < 20)),
    if_neg (by omega : ¬ (4 : Nat) ≠ 4), if_neg (by omega : ¬ ihl < 5)]
  simp only [Except.ok.injEq, Ipv4Header.mk.injEq, Prod.mk.injEq, fromBE16]
  repeat any_goals apply And.intro
  all_goals first | trivial | omega

/-- Decoding an encoded TCP header recovers it, whenever the fields are in
the wire format's ranges and the reserved field is zero. -/
theorem tcp_header_roundtrip (h : TcpHeader) (hwf : h.Wf) (hd5 : 5 ≤ h.data_offset)
    (hd15 : h.data_offset ≤ 15) (hres : h.reserved = 0) :
    TcpHeader.from_bytes h.to_bytes = .ok h := by
  obtain ⟨w1, w2, w3, w4, w5, w6, w7, w8, w9⟩ := hwf
  obtain ⟨sp, dp, seq, ack, dof, res, fl, win, ck, up⟩ := h
  simp only at hd5 hd15 hres w1 w2 w3 w4 w5 w6 w7 w8 w9
  subst hres
  simp only [TcpHeader.from_bytes, TcpHeader.to_bytes, List.length_cons, List.length_nil,
    List.getD_cons_zero, List.getD_cons_succ]
  rw [if_neg (by omega : ¬ (0 + 1 + 1 + 1 + 1 + 1 + 1 + 1 + 1 + 1 + 1 + 1 + 1 + 1
      + 1 + 1 + 1 + 1 + 1 + 1 + 1 < 20)),
    fromBE32_split seq w3, fromBE32_split ack w4, tcp_flags_from_to fl]
  simp only [Except.ok.injEq, PanicOr.ok.injEq, TcpHeader.mk.injEq, fromBE16]
  repeat any_goals apply And.intro
  all_goals first | trivial | omega

/-- Decoding an encoded Ethernet header recovers it. -/
theorem ethernet_roundtrip (h : EthernetHeader) :
    EthernetHeader.from_bytes h.to_bytes = .ok h := by
  obtain ⟨⟨a1, a2, a3, a4, a5, a6⟩, ⟨b1, b2, b3, b4, b5, b6⟩, ⟨e1, e2⟩⟩ := h
  rfl

theorem ipv4_scan_zero (rest : List Nat) :
    Ipv4Options.scan (0 :: rest) = .ok [.EndOfOptionsList] := rfl

theorem ipv4_scan_nop_prefix (k : Nat) (rest : List Nat) :
    Ipv4Options.scan (List.replicate k 1 ++ 0 :: rest) =
      .ok (List.replicate k .NoOperation ++ [.EndOfOptionsList]) := by
  induction k with
  | zero => simp [ipv4_scan_zero]
  | succ n ih => simp [List.replicate_succ, Ipv4Options.scan, Ipv4Option.from_bytes, ih]

theorem ipv4_from_bytes_zeros (n : Nat) (hn : 1 ≤ n) :
    Ipv4Options.from_bytes (List.replicate n 0) = .ok ⟨[.EndOfOptionsList]⟩ := by
  obtain ⟨m, rfl⟩ : ∃ m, n = m + 1 := ⟨n - 1, by omega⟩
  rw [List.replicate_succ]
  simp [Ipv4Options.from_bytes, ipv4_scan_zero]

theorem tcp_scan_zero (rest : List Nat) :
    TcpOptions.scan (0 :: rest) = .ok [] := by
  simp [TcpOptions.scan]

theorem tcp_scan_zeros (n : Nat) :
    TcpOptions.scan (List.replicate n 0) = .ok [] := by
  cases n with
  | zero => simp [TcpOptions.scan]
  | succ m => rw [List.replicate_succ]; exact tcp_scan_zero _

theorem tcp_scan_nop_prefix (k : Nat) (rest : List Nat) :
    TcpOptions.scan (List.replicate k 1 ++ 0 :: rest) =
      .ok (List.replicate k .NoOperation) := by
  induction k with
  | zero => simp [tcp_scan_zero]
  | succ n ih => simp [List.replicate_succ, TcpOptions.scan, TcpOption.from_bytes, ih]

theorem ipv4_header_error_iff (bs : List Nat) (hbytes : ∀ b ∈ bs, b < 256) :
    (∃ e, Ipv4Header.from_bytes bs = .error e) ↔
      (bs.length < 20 ∨ bs.getD 0 0 / 16 ≠ 4 ∨ bs.getD 0 0 % 16 < 5) := by
  cases bs with
  | nil => simp [Ipv4Header.from_bytes]
  | cons b rest =>
    have hb : b < 256 := hbytes b (List.mem_cons_self b rest)
    have hq : b / 16 % 16 = b / 16 := by omega
    simp only [Ipv4Header.from_bytes, List.getD_cons_zero, hq]
    split_ifs with h1 h2 h3 <;> simp [List.length_cons] at h1 ⊢ <;> omega

theorem tcp_option_unknown_kind (b : Nat) (rest : List Nat)
    (h0 : b ≠ 0) (h1 : b ≠ 1) (h2 : b ≠ 2) :
    ∃ e, TcpOption.from_bytes (b :: rest) = .error e := by
  rcases b with _ | _ | _ | n
  · omega
  · omega
  · omega
  · exact ⟨_, rfl⟩

theorem tcp_option_mss_error (rest : List Nat)
    (h : (2 :: rest).length < 4 ∨ (2 :: rest).getD 1 0 ≠ 4) :
    ∃ e, TcpOption.from_bytes (2 :: rest) = .error e := by
  simp only [TcpOption.from_bytes]
  split_ifs with h1 h2
  · exact ⟨_, rfl⟩
  · exact ⟨_, rfl⟩
  · exfalso; rcases h with h | h
    · exact h1 h
    · exact h2 h

theorem sumBE16_replicate_zero (n : Nat) : sumBE16 (List.replicate n 0) = 0 := by
  induction n using Nat.strong_induction_on with
  | _ n ih =>
    match n with
    | 0 => rfl
    | 1 => rfl
    | k + 2 =>
      rw [List.replicate_succ, List.replicate_succ,
        show sumBE16 (0 :: 0 :: List.replicate k 0)
          = fromBE16 0 0 + sumBE16 (List.replicate k 0) from rfl,
        ih k (by omega)]
      simp [fromBE16]

theorem internetChecksum_zeros (n : Nat) :
    internetChecksum (List.replicate n 0) = 0xFFFF := by
  rw [internetChecksum, sumBE16_replicate_zero]
  rfl

theorem ipv4_packet_fields (p : Ipv4Packet)
    (hW : 5 + p.options.words_needed < 256)
    (hT : (5 + p.options.words_needed) * 4 + p.payload.length < 65536) :
    p.to_bytes.1.header.ihl = 5 + p.options.words_needed ∧
    p.to_bytes.1.header.total_length = (5 + p.options.words_needed) * 4 + p.payload.length ∧
    p.to_bytes.2 = p.to_bytes.1.header.to_bytes ++ p.options.to_bytes ++ p.payload ∧
    p.to_bytes.1.header.to_bytes.length = 20 := by
  refine ⟨?_, ?_, ?_, ?_⟩
  · simp only [Ipv4Packet.to_bytes, Ipv4Packet.update_ihl, Ipv4Packet.update_total_length]
    omega
  · simp only [Ipv4Packet.to_bytes, Ipv4Packet.update_ihl, Ipv4Packet.update_total_length]
    omega
  · rfl
  · simp [Ipv4Header.to_bytes]

theorem update_total_length_spec (p : Ipv4Packet) (hihl : p.header.ihl < 256) :
    p.update_total_length.header.total_length =
      (p.header.ihl * 4 + p.payload.length) % 65536 ∧
    (p.header.ihl * 4 + p.payload.length < 65536 →
      p.update_total_length.header.total_length = p.header.ihl * 4 + p.payload.length) := by
  unfold Ipv4Packet.update_total_length
  simp only
  omega

theorem tcp_from_bytes_short_panics (bs : List Nat) (h : bs.length < 20) :
    TcpHeader.from_bytes bs = .panicked "TCP header must be at least 20 bytes" := by
  simp [TcpHeader.from_bytes, h]

theorem tcp_byte12_roundtrip (h : TcpHeader) (hres : h.reserved = 0)
    (hd : h.data_offset ≤ 15) :
    ∃ h2, TcpHeader.from_bytes h.to_bytes = .ok h2 ∧
      h2.data_offset = h.data_offset ∧ h2.reserved = h.reserved := by
  obtain ⟨sp, dp, seq, ack, dof, res, fl, win, ck, up⟩ := h
  simp only at hres hd
  subst hres
  simp only [TcpHeader.from_bytes, TcpHeader.to_bytes, List.length_cons, List.length_nil,
    List.getD_cons_zero, List.getD_cons_succ]
  rw [if_neg (by omega : ¬ (0 + 1 + 1 + 1 + 1 + 1 + 1 + 1 + 1 + 1 + 1 + 1 + 1 + 1
      + 1 + 1 + 1 + 1 + 1 + 1 + 1 < 20))]
  refine ⟨_, rfl, ?_, ?_⟩ <;> simp only <;> omega

theorem tcp_reserved_lost : ∃ h : TcpHeader, h.Wf ∧ h.reserved ≠ 0 ∧
    ∃ h2, TcpHeader.from_bytes h.to_bytes = .ok h2 ∧ h2.reserved ≠ h.reserved := by
  refine ⟨{ TcpHeader.new 0 0 with reserved := 1 }, by decide, by decide,
    TcpHeader.new 0 0, by decide, by decide⟩

/-! ## Concrete example values, taken from the repository's tests -/

/-- The IPv4 header of the source's `test_ipv4_header_from_bytes` test. -/
def ipv4HeaderEx : Ipv4Header where
  version := 4
  ihl := 5
  type_of_service := 0
  total_length := 40
  identification := 0x1234
  flags := ⟨false, true, false⟩
  fragment_offset := 0
  time_to_live := 64
  protocol := 6
  header_checksum := 0x5678
  source_address := (192, 168, 1, 1)
  destination_address := (10, 0, 0, 1)

/-- The TCP header of the source's `test_tcp_header_to_bytes` test. -/
def tcpHeaderEx : TcpHeader :=
  { TcpHeader.new 80 8080 with
    sequence_number := 0x12345678
    acknowledgment_number := 0x87654321
    window := 65535
    flags := { TcpFlags.new with syn := true } }

/-- The Ethernet header of the source's `test_ethernet_header_from_bytes` test. -/
def ethernetHeaderEx : EthernetHeader where
  destination_mac_address := ⟨0xff, 0xff, 0xff, 0xff, 0xff, 0xff⟩
  source_mac_address := ⟨0, 0, 0, 0, 0, 0⟩
  ethertype := (0x08, 0x00)

/-- The IPv4 packet of the source's `test_ipv4_packet_basic` test: no
options, payload "Test", protocol 17. -/
def ipv4PacketEx : Ipv4Packet :=
  Ipv4Packet.new (10, 0, 0, 1) (10, 0, 0, 2) 17 [0x54, 0x65, 0x73, 0x74]

/-- The TCP packet of the source's `test_tcp_packet_syn_with_mss` test:
ports 12345 to 80, SYN, sequence number 0x12345678, window 65535, one
MSS(1460) option, empty payload. -/
def tcpSynMssPacket : TcpPacket where
  header :=
    { TcpHeader.new 12345 80 with
      sequence_number := 0x12345678
      window := 65535
      flags := { TcpFlags.new with syn := true } }
  options := ⟨[.MaximumSegmentSize 1460]⟩
  payload := []

/-! ## Claims -/

/-- Claim C1: for every header whose fields are within the valid ranges of
the wire format (IPv4: version = 4, 5 ≤ IHL ≤ 15, fragment offset below
2^13; TCP: 5 ≤ data offset ≤ 15, reserved = 0), decoding the bytes produced
by encoding yields the original header, for the IPv4, TCP and Ethernet
header codecs independently. -/
theorem header_codecs_roundtrip :
    (∀ h : Ipv4Header, h.Wf → h.version = 4 → 5 ≤ h.ihl → h.ihl ≤ 15 →
      h.fragment_offset < 2 ^ 13 → Ipv4Header.from_bytes h.to_bytes = .ok h) ∧
    (∀ h : TcpHeader, h.Wf → 5 ≤ h.data_offset → h.data_offset ≤ 15 → h.reserved = 0 →
      TcpHeader.from_bytes h.to_bytes = .ok h) ∧
    (∀ h : EthernetHeader, EthernetHeader.from_bytes h.to_bytes = .ok h) :=
  ⟨fun h hwf hv h5 h15 hfo => ipv4_header_roundtrip h hwf hv h5 h15 (by omega),
   tcp_header_roundtrip, ethernet_roundtrip⟩

theorem header_codecs_roundtrip_witness :
    ipv4HeaderEx.Wf ∧ ipv4HeaderEx.version = 4 ∧ 5 ≤ ipv4HeaderEx.ihl ∧ ipv4HeaderEx.ihl ≤ 15 ∧
      ipv4HeaderEx.fragment_offset < 2 ^ 13 ∧
      Ipv4Header.from_bytes ipv4HeaderEx.to_bytes = .ok ipv4HeaderEx ∧
      tcpHeaderEx.Wf ∧
      TcpHeader.from_bytes tcpHeaderEx.to_bytes = .ok tcpHeaderEx ∧
      EthernetHeader.from_bytes ethernetHeaderEx.to_bytes = .ok ethernetHeaderEx :=
  ⟨by decide, by decide, by decide, by decide, by decide,
   header_codecs_roundtrip.1 ipv4HeaderEx (by decide) (by decide) (by decide) (by decide)
     (by decide),
   by decide,
   header_codecs_roundtrip.2.1 tcpHeaderEx (by decide) (by decide) (by decide) (by decide),
   header_codecs_roundtrip.2.2 ethernetHeaderEx⟩

/-- Claim C2: building an IPv4 packet whose payload has length P and whose
options need W 32-bit words sets IHL to 5 + W and total length to
(5+W)·4 + P, and returns the 20-byte header followed by the padded options
bytes followed by the payload; in particular, with no options, payload
"Test" and protocol 17 the output is 24 bytes with byte 0 = 0x45 and total
length 24. -/
theorem ipv4_packet_ihl_total_length :
    (∀ p : Ipv4Packet, 5 + p.options.words_needed < 256 →
      (5 + p.options.words_needed) * 4 + p.payload.length < 65536 →
      p.to_bytes.1.header.ihl = 5 + p.options.words_needed ∧
      p.to_bytes.1.header.total_length = (5 + p.options.words_needed) * 4 + p.payload.length ∧
      p.to_bytes.2 = p.to_bytes.1.header.to_bytes ++ p.options.to_bytes ++ p.payload ∧
      p.to_bytes.1.header.to_bytes.length = 20) ∧
    (ipv4PacketEx.to_bytes.2.length = 24 ∧ ipv4PacketEx.to_bytes.2.getD 0 0 = 0x45 ∧
      ipv4PacketEx.to_bytes.1.header.total_length = 24 ∧
      fromBE16 (ipv4PacketEx.to_bytes.2.getD 2 0) (ipv4PacketEx.to_bytes.2.getD 3 0) = 24) :=
  ⟨ipv4_packet_fields, by decide⟩

theorem ipv4_packet_ihl_total_length_witness :
    5 + ipv4PacketEx.options.words_needed < 256 ∧
    (5 + ipv4PacketEx.options.words_needed) * 4 + ipv4PacketEx.payload.length < 65536 ∧
    (ipv4PacketEx.to_bytes.1.header.ihl = 5 + ipv4PacketEx.options.words_needed ∧
      ipv4PacketEx.to_bytes.1.header.total_length =
        (5 + ipv4PacketEx.options.words_needed) * 4 + ipv4PacketEx.payload.length ∧
      ipv4PacketEx.to_bytes.2 =
        ipv4PacketEx.to_bytes.1.header.to_bytes ++ ipv4PacketEx.options.to_bytes ++
          ipv4PacketEx.payload ∧
      ipv4PacketEx.to_bytes.1.header.to_bytes.length = 20) :=
  ⟨by decide, by decide, ipv4_packet_ihl_total_length.1 ipv4PacketEx (by decide) (by decide)⟩

/-- Claim C3: the Internet checksum used by the packet builders returns
0xFFFF on an all-zero input of any length (the empty input and every
positive even length included), and never 0x0000 on all-zero input. -/
theorem checksum_all_zero_input :
    ∀ n : Nat, internetChecksum (List.replicate n 0) = 0xFFFF ∧
      internetChecksum (List.replicate n 0) ≠ 0 :=
  fun n => ⟨internetChecksum_zeros n, by rw [internetChecksum_zeros n]; omega⟩

/-- Claim C4: the TCP packet with source port 12345, destination port 80,
SYN set, sequence number 0x12345678, window 65535, one MSS(1460) option and
empty payload serializes over 192.168.1.100 → 192.168.1.1 to exactly 24
bytes with byte 12 = 0x60, byte 13 = 0x02, bytes 20..23 =
[0x02, 0x04, 0x05, 0xb4], and a non-zero checksum at bytes 16-17. -/
theorem tcp_syn_mss_packet_bytes :
    (tcpSynMssPacket.to_bytes_ipv4 (192, 168, 1, 100) (192, 168, 1, 1)).2.length = 24 ∧
    (tcpSynMssPacket.to_bytes_ipv4 (192, 168, 1, 100) (192, 168, 1, 1)).2.getD 12 0 = 0x60 ∧
    (tcpSynMssPacket.to_bytes_ipv4 (192, 168, 1, 100) (192, 168, 1, 1)).2.getD 13 0 = 0x02 ∧
    (tcpSynMssPacket.to_bytes_ipv4 (192, 168, 1, 100) (192, 168, 1, 1)).2.getD 20 0 = 0x02 ∧
    (tcpSynMssPacket.to_bytes_ipv4 (192, 168, 1, 100) (192, 168, 1, 1)).2.getD 21 0 = 0x04 ∧
    (tcpSynMssPacket.to_bytes_ipv4 (192, 168, 1, 100) (192, 168, 1, 1)).2.getD 22 0 = 0x05 ∧
    (tcpSynMssPacket.to_bytes_ipv4 (192, 168, 1, 100) (192, 168, 1, 1)).2.getD 23 0 = 0xb4 ∧
    fromBE16 ((tcpSynMssPacket.to_bytes_ipv4 (192, 168, 1, 100) (192, 168, 1, 1)).2.getD 16 0)
      ((tcpSynMssPacket.to_bytes_ipv4 (192, 168, 1, 100) (192, 168, 1, 1)).2.getD 17 0) ≠ 0 := by
  decide

/-- Claim C5 counterexample: at the concrete 19-byte all-zero input,
`TcpHeader::from_bytes` panics — an irrecoverable abort of the call — rather
than returning an error value the immediate caller could observe and recover
from (the function's return type has no error case at all). -/
theorem tcp_header_from_bytes_19_bytes_panics :
    TcpHeader.from_bytes (List.replicate 19 0) =
      .panicked "TCP header must be at least 20 bytes" := by
  decide

/-- Claim C5 as amended: for every input of fewer than 20 bytes,
`TcpHeader::from_bytes` hits its explicit length check and panics with the
message "TCP header must be at least 20 bytes" — a deliberate, reported
abort rather than an unchecked out-of-bounds access, but not a failure value
the immediate caller can observe and recover from. -/
theorem tcp_header_from_bytes_short_input_panics :
    ∀ bs : List Nat, bs.length < 20 →
      TcpHeader.from_bytes bs = .panicked "TCP header must be at least 20 bytes" :=
  tcp_from_bytes_short_panics

theorem tcp_header_from_bytes_short_input_panics_witness :
    ([] : List Nat).length < 20 ∧
      TcpHeader.from_bytes [] = .panicked "TCP header must be at least 20 bytes" :=
  ⟨by decide, tcp_header_from_bytes_short_input_panics [] (by decide)⟩

/-- Claim C6: the IPv4 options decoder stops as soon as a zero byte
(EndOfOptionsList) is consumed, leaving every trailing byte uninspected, so
an all-zero input of any length N ≥ 1 decodes to exactly one
EndOfOptionsList entry. -/
theorem ipv4_options_decode_stops_at_zero :
    (∀ rest : List Nat, Ipv4Options.from_bytes (0 :: rest) = .ok ⟨[.EndOfOptionsList]⟩) ∧
    (∀ (k : Nat) (rest : List Nat),
      Ipv4Options.from_bytes (List.replicate k 1 ++ 0 :: rest) =
        .ok ⟨List.replicate k .NoOperation ++ [.EndOfOptionsList]⟩) ∧
    (∀ n : Nat, 1 ≤ n →
      Ipv4Options.from_bytes (List.replicate n 0) = .ok ⟨[.EndOfOptionsList]⟩) :=
  ⟨fun rest => by rw [Ipv4Options.from_bytes, ipv4_scan_zero],
   fun k rest => by rw [Ipv4Options.from_bytes, ipv4_scan_nop_prefix],
   ipv4_from_bytes_zeros⟩

theorem ipv4_options_decode_stops_at_zero_witness :
    1 ≤ 4 ∧ Ipv4Options.from_bytes (List.replicate 4 0) = .ok ⟨[.EndOfOptionsList]⟩ :=
  ⟨by decide, ipv4_options_decode_stops_at_zero.2.2 4 (by decide)⟩

/-- Claim C7: the TCP options decoder terminates the scan at a zero byte
with the options collected so far and does not decode it as an
EndOfOptionList entry (an all-zero input decodes to the empty list), unlike
the IPv4 options decoder, which decodes a zero byte as an explicit
EndOfOptionsList entry. -/
theorem tcp_options_zero_byte_terminates :
    (∀ rest : List Nat, TcpOptions.from_bytes (0 :: rest) = .ok ⟨[]⟩) ∧
    (∀ n : Nat, TcpOptions.from_bytes (List.replicate n 0) = .ok ⟨[]⟩) ∧
    (∀ (k : Nat) (rest : List Nat),
      TcpOptions.from_bytes (List.replicate k 1 ++ 0 :: rest) =
        .ok ⟨List.replicate k .NoOperation⟩) ∧
    (∀ rest : List Nat, Ipv4Options.from_bytes (0 :: rest) = .ok ⟨[.EndOfOptionsList]⟩) :=
  ⟨fun rest => by rw [TcpOptions.from_bytes, tcp_scan_zero],
   fun n => by rw [TcpOptions.from_bytes, tcp_scan_zeros],
   fun k rest => by rw [TcpOptions.from_bytes, tcp_scan_nop_prefix],
   fun rest => by rw [Ipv4Options.from_bytes, ipv4_scan_zero]⟩

/-- Claim C8: `Ipv4Header::from_bytes` fails exactly when the input is
shorter than 20 bytes, the version nibble differs from 4, or the IHL nibble
is below 5; and `TcpOption::from_bytes` fails on every kind byte outside
{0, 1, 2}, and on kind 2 whenever fewer than 4 bytes remain or the declared
length byte is not 4. -/
theorem decode_failure_cases :
    (∀ bs : List Nat, (∀ b ∈ bs, b < 256) →
      ((∃ e, Ipv4Header.from_bytes bs = .error e) ↔
        (bs.length < 20 ∨ bs.getD 0 0 / 16 ≠ 4 ∨ bs.getD 0 0 % 16 < 5))) ∧
    (∀ (b : Nat) (rest : List Nat), b ≠ 0 → b ≠ 1 → b ≠ 2 →
      ∃ e, TcpOption.from_bytes (b :: rest) = .error e) ∧
    (∀ rest : List Nat, (2 :: rest).length < 4 ∨ (2 :: rest).getD 1 0 ≠ 4 →
      ∃ e, TcpOption.from_bytes (2 :: rest) = .error e) :=
  ⟨ipv4_header_error_iff, tcp_option_unknown_kind, tcp_option_mss_error⟩

theorem decode_failure_cases_witness :
    (∀ b ∈ (0x55 :: List.replicate 19 0), b < 256) ∧
    ((∃ e, Ipv4Header.from_bytes (0x55 :: List.replicate 19 0) = .error e) ↔
      ((0x55 :: List.replicate 19 0).length < 20 ∨
        (0x55 :: List.replicate 19 0).getD 0 0 / 16 ≠ 4 ∨
        (0x55 :: List.replicate 19 0).getD 0 0 % 16 < 5)) ∧
    (∃ e, TcpOption.from_bytes [255] = .error e) ∧
    (∃ e, TcpOption.from_bytes [2, 5, 0, 0] = .error e) :=
  ⟨by decide, decode_failure_cases.1 _ (by decide),
   decode_failure_cases.2.1 255 [] (by decide) (by decide) (by decide),
   decode_failure_cases.2.2 [5, 0, 0] (by decide)⟩

/-- Claim C9: the encoder packs the reserved field into bits 0-2 of byte 12
while the decoder reads bits 1-3, so with reserved = 0 the byte-12
round-trip preserves both data offset and reserved, but some header with a
non-zero reserved field decodes to a different reserved value. -/
theorem tcp_reserved_field_asymmetry :
    (∀ h : TcpHeader, h.reserved = 0 → h.data_offset ≤ 15 →
      ∃ h2, TcpHeader.from_bytes h.to_bytes = .ok h2 ∧
        h2.data_offset = h.data_offset ∧ h2.reserved = h.reserved) ∧
    (∃ h : TcpHeader, h.Wf ∧ h.reserved ≠ 0 ∧
      ∃ h2, TcpHeader.from_bytes h.to_bytes = .ok h2 ∧ h2.reserved ≠ h.reserved) :=
  ⟨tcp_byte12_roundtrip, tcp_reserved_lost⟩

theorem tcp_reserved_field_asymmetry_witness :
    tcpHeaderEx.reserved = 0 ∧ tcpHeaderEx.data_offset ≤ 15 ∧
    (∃ h2, TcpHeader.from_bytes tcpHeaderEx.to_bytes = .ok h2 ∧
      h2.data_offset = tcpHeaderEx.data_offset ∧ h2.reserved = tcpHeaderEx.reserved) :=
  ⟨by decide, by decide, tcp_reserved_field_asymmetry.1 tcpHeaderEx (by decide) (by decide)⟩

/-- Claim C10: `Ipv4Packet::update_total_length` stores
(ihl·4 + payload length) reduced modulo 2^16 in the total-length field: the
exact sum whenever it fits in 16 bits, and the silently wrapped value for
every larger payload, with no error reported (the function has no error
channel). -/
theorem ipv4_total_length_wraps :
    ∀ p : Ipv4Packet, p.header.ihl < 256 →
      p.update_total_length.header.total_length =
        (p.header.ihl * 4 + p.payload.length) % 65536 ∧
      (p.header.ihl * 4 + p.payload.length < 65536 →
        p.update_total_length.header.total_length =
          p.header.ihl * 4 + p.payload.length) :=
  update_total_length_spec

theorem ipv4_total_length_wraps_witness :
    ipv4PacketEx.header.ihl < 256 ∧
    (ipv4PacketEx.update_total_length.header.total_length =
      (ipv4PacketEx.header.ihl * 4 + ipv4PacketEx.payload.length) % 65536 ∧
     (ipv4PacketEx.header.ihl * 4 + ipv4PacketEx.payload.length < 65536 →
      ipv4PacketEx.update_total_length.header.total_length =
        ipv4PacketEx.header.ihl * 4 + ipv4PacketEx.payload.length)) :=
  ⟨by decide, ipv4_total_length_wraps ipv4PacketEx (by decide)⟩

end PacketBuilder
